import Mathlib

/-!
Shallow embedding of `src/train.py` (training entry point of the
NLPProject repository).

The script is straight-line configuration code: it declares command-line
options, seeds the random number generators, builds PyTorch Lightning
callback objects, constructs a trainer, runs `fit` and `test`, and pickles
the hyperparameters.  We model a run of `train_model` / `main` as the list
of externally visible framework calls it makes (an `Event` trace), with the
parsed arguments as an explicit record.  Python floats are modelled as
exact rationals: the script performs no floating-point arithmetic, it only
passes the parsed values through.
-/

namespace TrainPy

/-- The parsed command-line arguments, one field per option declared in
`add_model_specific_args` (the option `--gradient_accumulation_steps` is
stored under its dest `accumulate_grad_batches`). -/
structure Args where
  learning_rate : Rat
  weight_decay : Rat
  num_workers : Int
  warmup_ratio : Rat
  save_top_k : Int
  train_batch_size : Int
  eval_batch_size : Int
  test_batch_size : Int
  seed : Int
  accumulate_grad_batches : Int
  output_dir : String
  max_length : Int
  early_stopping_patience : Int
  pre_encoder : String
  wandb : Bool
  fp16 : Bool
  n_train : Int
  n_val : Int
  n_test : Int
  deriving DecidableEq

/-- The callback objects the script can construct, with the keyword
arguments the script passes to their constructors. -/
inductive Callback where
  | loggingCallback : Callback
  | modelCheckpoint (dirpath filename monitor mode : String) (save_top_k : Int) : Callback
  | earlyStopping (monitor mode : String) (patience : Int) (verbose : Bool) : Callback
  deriving DecidableEq

/-- The logger value handed to the trainer: a WandbLogger object when
`--wandb` was given, the Python literal `True` otherwise. -/
inductive Logger where
  | wandbLogger (name project : String) : Logger
  | boolTrue : Logger
  deriving DecidableEq

/-- One externally visible framework call of a run of the script. -/
inductive Event where
  | seedEverything (seed : Int) : Event
  | randomSeed (seed : Int) : Event
  | torchManualSeed (seed : Int) : Event
  | cudaManualSeed (seed : Int) : Event
  | cudaManualSeedAll (seed : Int) : Event
  | constructCallback (c : Callback) : Event
  | constructTrainer (weightsSummary : String) (callbacks : List Callback)
      (lg : Logger) (precisionVal : Int) : Event
  | fit : Event
  | mkdir (path : List String) (existOk : Bool) : Event
  | constructModel : Event
  | constructLogger (lg : Logger) : Event
  | pickleSaveHparams : Event
  | test (verbose : Bool) (ckptPath : String) : Event
  deriving DecidableEq

/-- `pl.callbacks.ModelCheckpoint(dirpath=args.output_dir,
filename="\x7bf1_score:.4f\x7d", monitor="f1_score", mode="max",
save_top_k=args.save_top_k)` of line 71 of `train.py`. -/
def checkpoint_callback (args : Args) : Callback :=
  Callback.modelCheckpoint args.output_dir "\x7bf1_score:.4f\x7d" "f1_score" "max"
    args.save_top_k

/-- `LoggingCallback()` of line 76 of `train.py`. -/
def logging_callback : Callback := Callback.loggingCallback

/-- `pl.callbacks.EarlyStopping(monitor="f1_score", mode="max",
patience=args.early_stopping_patience, verbose=True)` of line 81. -/
def early_stopping_callback (args : Args) : Callback :=
  Callback.earlyStopping "f1_score" "max" args.early_stopping_patience true

/-- The `extra_callbacks` list of lines 78-87: logging then checkpoint,
with the early-stopping callback appended when
`args.early_stopping_patience > 0`. -/
def extra_callbacks (args : Args) : List Callback :=
  [logging_callback, checkpoint_callback args] ++
    (if 0 < args.early_stopping_patience then [early_stopping_callback args] else [])

/-- The `precision` local of lines 89-92: 16 under `--fp16`, else 32. -/
def precisionValue (args : Args) : Int :=
  if args.fp16 then 16 else 32

/-- The trace of `train_model(model, args, logger)` (lines 62-104): the five
seeding calls, the callback constructions in source order (checkpoint, then
logging, then conditionally early stopping), the trainer construction with
`weights_summary="top"`, and `trainer.fit(model)`. -/
def train_model (args : Args) (lg : Logger) : List Event :=
  [Event.seedEverything args.seed,
   Event.randomSeed args.seed,
   Event.torchManualSeed args.seed,
   Event.cudaManualSeed args.seed,
   Event.cudaManualSeedAll args.seed,
   Event.constructCallback (checkpoint_callback args),
   Event.constructCallback logging_callback] ++
  (if 0 < args.early_stopping_patience then
    [Event.constructCallback (early_stopping_callback args)] else []) ++
  [Event.constructTrainer "top" (extra_callbacks args) lg (precisionValue args),
   Event.fit]

/-- The logger `main` builds on lines 115-119: a WandbLogger named
"twitter" in project "NLP" when `args.wandb`, else the literal `True`. -/
def mainLogger (args : Args) : Logger :=
  if args.wandb then Logger.wandbLogger "twitter" "NLP" else Logger.boolTrue

/-- Splits a character list at every slash. -/
def splitSlash : List Char → List Char → List (List Char)
  | [], acc => [acc.reverse]
  | c :: rest, acc =>
      if c = '/' then acc.reverse :: splitSlash rest []
      else splitSlash rest (c :: acc)

/-- The path components of a path string, as `pathlib.Path` parses it:
the non-empty segments between slashes. -/
def toPath (s : String) : List String :=
  ((splitSlash s.toList []).map (fun cs => String.mk cs)).filter (fun c => c ≠ "")

/-- The trace of a successful run of `main(args)` (lines 107-125): mkdir on
the output dir, model construction, the conditional WandbLogger
construction, the `train_model` trace, `pickle_save` of the hyperparameters,
and `trainer.test(verbose=False, ckpt_path="best")`. -/
def main_events (args : Args) : List Event :=
  [Event.mkdir (toPath args.output_dir) true,
   Event.constructModel] ++
  (if args.wandb then [Event.constructLogger (Logger.wandbLogger "twitter" "NLP")] else []) ++
  train_model args (mainLogger args) ++
  [Event.pickleSaveHparams,
   Event.test false "best"]

/-- A filesystem for the `mkdir` call: the set of directories that exist
(regular files are not modelled; the claims only concern directories). -/
structure FS where
  dirs : List (List String)
  deriving DecidableEq

/-- Whether `p` exists as a directory. -/
def FS.isDir (fs : FS) (p : List String) : Bool :=
  fs.dirs.contains p

/-- Whether the parent of `p` exists; the empty parent is the current
directory, which always exists. -/
def FS.parentExists (fs : FS) (p : List String) : Bool :=
  p.dropLast.isEmpty || fs.dirs.contains p.dropLast

/-- The exceptions `pathlib.Path.mkdir` can raise in this model. -/
inductive MkdirError where
  | fileNotFound : MkdirError
  | fileExists : MkdirError
  deriving DecidableEq

/-- `Path.mkdir` with `parents=False` (the default, since `main` does not
pass `parents=True`): succeed on an existing directory only under
`exist_ok`, create the directory when its parent exists, and raise
`FileNotFoundError` when the parent is missing. -/
def FS.mkdir (fs : FS) (p : List String) (existOk : Bool) : Except MkdirError FS :=
  if fs.isDir p then
    if existOk then Except.ok fs else Except.error MkdirError.fileExists
  else if fs.parentExists p then
    Except.ok { dirs := p :: fs.dirs }
  else
    Except.error MkdirError.fileNotFound

/-- A run of `main(args)` against filesystem `fs`: the `odir.mkdir(exist_ok=True)`
call of line 109 either raises (so nothing after it runs, in particular no
model is built and no training happens) or the rest of `main` runs. -/
def main (fs : FS) (args : Args) : Except MkdirError (List Event) :=
  match fs.mkdir (toPath args.output_dir) true with
  | Except.error e => Except.error e
  | Except.ok _ => Except.ok (main_events args)

/-- A value an option can carry or default to. -/
inductive ArgValue where
  | intV (i : Int) : ArgValue
  | floatV (q : Rat) : ArgValue
  | strV (s : String) : ArgValue
  | boolV (b : Bool) : ArgValue
  | noneV : ArgValue
  deriving DecidableEq

/-- One `parser.add_argument` declaration: the dest name, whether the option
was declared `required=True`, and its default value. -/
structure OptionDecl where
  name : String
  required : Bool
  default : ArgValue
  deriving DecidableEq

/-- The option declarations of `add_model_specific_args` (lines 12-59), in
source order, each with its `required` flag and default;
`--gradient_accumulation_steps` is listed under its dest
`accumulate_grad_batches`, and the two `store_true` flags default to false. -/
def add_model_specific_args : List OptionDecl :=
  [⟨"learning_rate", false, ArgValue.floatV (5 / 100000)⟩,
   ⟨"weight_decay", false, ArgValue.floatV 0⟩,
   ⟨"num_workers", false, ArgValue.intV 8⟩,
   ⟨"warmup_ratio", false, ArgValue.floatV (1 / 10)⟩,
   ⟨"save_top_k", false, ArgValue.intV 1⟩,
   ⟨"train_batch_size", false, ArgValue.intV 32⟩,
   ⟨"eval_batch_size", false, ArgValue.intV 32⟩,
   ⟨"test_batch_size", false, ArgValue.intV 32⟩,
   ⟨"seed", false, ArgValue.intV 42⟩,
   ⟨"accumulate_grad_batches", false, ArgValue.intV 1⟩,
   ⟨"output_dir", true, ArgValue.noneV⟩,
   ⟨"max_length", false, ArgValue.intV 60⟩,
   ⟨"early_stopping_patience", false, ArgValue.intV (-1)⟩,
   ⟨"pre_encoder", false, ArgValue.strV "bert-base-uncased"⟩,
   ⟨"wandb", false, ArgValue.boolV false⟩,
   ⟨"fp16", false, ArgValue.boolV false⟩,
   ⟨"n_train", false, ArgValue.intV (-1)⟩,
   ⟨"n_val", false, ArgValue.intV (-1)⟩,
   ⟨"n_test", false, ArgValue.intV (-1)⟩]

/-- Argparse semantics for these declarations: `provided` maps the options
given on the command line to their values; parsing errors out exactly when
a `required=True` option is missing, and otherwise each omitted option takes
its declared default. -/
def parse_args (provided : List (String × ArgValue)) : Option (List (String × ArgValue)) :=
  if add_model_specific_args.all
      (fun d => !d.required || provided.any (fun p => p.fst == d.name)) then
    some (add_model_specific_args.map (fun d =>
      (d.name,
        match provided.find? (fun p => p.fst == d.name) with
        | some p => p.snd
        | none => d.default)))
  else
    none

/-- The declared default of an option, by dest name. -/
def optionDefault (n : String) : Option ArgValue :=
  (add_model_specific_args.find? (fun d => d.name == n)).map (fun d => d.default)

/-- The callback objects a trace constructs, in order. -/
def constructedCallbacks (t : List Event) : List Callback :=
  t.filterMap (fun e =>
    match e with
    | Event.constructCallback c => some c
    | _ => none)

/-- Whether an event is a trainer construction. -/
def Event.isConstructTrainer : Event → Bool
  | Event.constructTrainer _ _ _ _ => true
  | _ => false

/-- The trainer constructions of a trace: weights summary, callbacks,
logger and precision of each. -/
def trainerCalls (t : List Event) : List (String × List Callback × Logger × Int) :=
  t.filterMap (fun e =>
    match e with
    | Event.constructTrainer w cbs lg p => some (w, cbs, lg, p)
    | _ => none)

/-- The precision argument of each trainer construction of a trace. -/
def trainerPrecisions (t : List Event) : List Int :=
  t.filterMap (fun e =>
    match e with
    | Event.constructTrainer _ _ _ p => some p
    | _ => none)

/-- The `fit` and `test` calls of a trace, in order. -/
def fitTestCalls (t : List Event) : List Event :=
  t.filter (fun e =>
    match e with
    | Event.fit => true
    | Event.test _ _ => true
    | _ => false)

/-- The `fit`, `pickle_save` and `test` calls of a trace, in order. -/
def fitSaveTestCalls (t : List Event) : List Event :=
  t.filter (fun e =>
    match e with
    | Event.fit => true
    | Event.pickleSaveHparams => true
    | Event.test _ _ => true
    | _ => false)

/-- Whether a callback object is an EarlyStopping instance. -/
def Callback.isEarlyStoppingCb : Callback → Bool
  | Callback.earlyStopping _ _ _ _ => true
  | _ => false

/-- The ModelCheckpoint instances a trace constructs. -/
def checkpointConstructions (t : List Event) : List Callback :=
  t.filterMap (fun e =>
    match e with
    | Event.constructCallback (Callback.modelCheckpoint d f m md k) =>
        some (Callback.modelCheckpoint d f m md k)
    | _ => none)

/-- The class of a callback object, forgetting constructor arguments. -/
inductive CallbackKind where
  | logging : CallbackKind
  | modelCheckpoint : CallbackKind
  | earlyStopping : CallbackKind
  deriving DecidableEq

/-- The class of a callback object. -/
def Callback.kind : Callback → CallbackKind
  | Callback.loggingCallback => CallbackKind.logging
  | Callback.modelCheckpoint _ _ _ _ _ => CallbackKind.modelCheckpoint
  | Callback.earlyStopping _ _ _ _ => CallbackKind.earlyStopping

/-- The shape of an event: which framework object is constructed or which
framework call is made, with the argument values passed through erased. -/
inductive EventShape where
  | seedEverything : EventShape
  | randomSeed : EventShape
  | torchManualSeed : EventShape
  | cudaManualSeed : EventShape
  | cudaManualSeedAll : EventShape
  | constructCallback (k : CallbackKind) : EventShape
  | constructTrainer : EventShape
  | fit : EventShape
  | mkdir : EventShape
  | constructModel : EventShape
  | constructLogger : EventShape
  | pickleSaveHparams : EventShape
  | test : EventShape
  deriving DecidableEq

/-- The shape of an event. -/
def Event.shape : Event → EventShape
  | Event.seedEverything _ => EventShape.seedEverything
  | Event.randomSeed _ => EventShape.randomSeed
  | Event.torchManualSeed _ => EventShape.torchManualSeed
  | Event.cudaManualSeed _ => EventShape.cudaManualSeed
  | Event.cudaManualSeedAll _ => EventShape.cudaManualSeedAll
  | Event.constructCallback c => EventShape.constructCallback c.kind
  | Event.constructTrainer _ _ _ _ => EventShape.constructTrainer
  | Event.fit => EventShape.fit
  | Event.mkdir _ _ => EventShape.mkdir
  | Event.constructModel => EventShape.constructModel
  | Event.constructLogger _ => EventShape.constructLogger
  | Event.pickleSaveHparams => EventShape.pickleSaveHparams
  | Event.test _ _ => EventShape.test

/-- An argument record holding every declared default, with output
directory "out": what parsing `--output_dir out` alone yields. -/
def argsBase : Args :=
  { learning_rate := 5 / 100000
    weight_decay := 0
    num_workers := 8
    warmup_ratio := 1 / 10
    save_top_k := 1
    train_batch_size := 32
    eval_batch_size := 32
    test_batch_size := 32
    seed := 42
    accumulate_grad_batches := 1
    output_dir := "out"
    max_length := 60
    early_stopping_patience := -1
    pre_encoder := "bert-base-uncased"
    wandb := false
    fp16 := false
    n_train := -1
    n_val := -1
    n_test := -1 }

/-- `argsBase` with an early-stopping patience of 2. -/
def argsPatienceTwo : Args :=
  { argsBase with early_stopping_patience := 2 }

/-- `argsBase` with a different seed and fp16 switched on. -/
def argsOtherValues : Args :=
  { argsBase with seed := 7, fp16 := true, output_dir := "elsewhere" }

/-- C1, counterexample: with the default arguments (early_stopping_patience
is -1), a run of `train_model` constructs only two callback objects, not
three; the early-stopping callback is skipped. -/
theorem C1_three_callbacks_cex :
    ¬ ((constructedCallbacks (train_model argsBase Logger.boolTrue)).length = 3) := by
  decide

/-- C1, amended: for every argument assignment, `train_model` constructs
exactly three stock callback objects when `args.early_stopping_patience > 0`
and exactly two otherwise (logging and checkpoint; with positive patience
also early stopping), all of them before the trainer is created and none
after it. -/
theorem C1_callback_count (args : Args) (lg : Logger) :
    (constructedCallbacks ((train_model args lg).takeWhile
        (fun e => !(Event.isConstructTrainer e)))).length
      = (if 0 < args.early_stopping_patience then 3 else 2) ∧
    (constructedCallbacks (train_model args lg)).length
      = (if 0 < args.early_stopping_patience then 3 else 2) := by
  by_cases h : 0 < args.early_stopping_patience <;>
    simp [train_model, h, constructedCallbacks, Event.isConstructTrainer, List.takeWhile]

/-- C2: for every argument assignment, exactly one trainer is created and
its callbacks list is `extra_callbacks args`, which contains the
LoggingCallback and the ModelCheckpoint callback; its EarlyStopping entries
are exactly one callback monitoring "f1_score" with mode "max" and patience
`args.early_stopping_patience` when that patience is positive, and none
otherwise; and the declared default of `--early_stopping_patience` is -1,
so by default no early stopping is configured. -/
theorem C2_trainer_callback_list (args : Args) (lg : Logger) :
    trainerCalls (train_model args lg) = [("top", extra_callbacks args, lg, precisionValue args)] ∧
    logging_callback ∈ extra_callbacks args ∧
    checkpoint_callback args ∈ extra_callbacks args ∧
    (extra_callbacks args).filter Callback.isEarlyStoppingCb
      = (if 0 < args.early_stopping_patience then
          [Callback.earlyStopping "f1_score" "max" args.early_stopping_patience true]
         else []) ∧
    optionDefault "early_stopping_patience" = some (ArgValue.intV (-1)) := by
  refine ⟨?_, ?_, ?_, ?_, rfl⟩ <;>
    by_cases h : 0 < args.early_stopping_patience <;>
      simp [train_model, trainerCalls, extra_callbacks, h, logging_callback,
        checkpoint_callback, early_stopping_callback, Callback.isEarlyStoppingCb]

/-- C3: for every argument assignment, the first five things `train_model`
does are the five seeding calls (`pl.seed_everything`, `random.seed`,
`torch.manual_seed`, `torch.cuda.manual_seed`,
`torch.cuda.manual_seed_all`), each with `args.seed`, and in particular no
callback and no trainer is constructed among them. -/
theorem C3_seeding_first (args : Args) (lg : Logger) :
    (train_model args lg).take 5 =
      [Event.seedEverything args.seed, Event.randomSeed args.seed,
       Event.torchManualSeed args.seed, Event.cudaManualSeed args.seed,
       Event.cudaManualSeedAll args.seed] ∧
    constructedCallbacks ((train_model args lg).take 5) = [] ∧
    trainerCalls ((train_model args lg).take 5) = [] :=
  ⟨rfl, rfl, rfl⟩

/-- C4: for every argument assignment, a run of `main` makes exactly one
`fit` call and exactly one `test` call, the `fit` call first, and the
`test` call passes `verbose=False` and `ckpt_path="best"`. -/
theorem C4_one_fit_then_one_test (args : Args) :
    fitTestCalls (main_events args) = [Event.fit, Event.test false "best"] := by
  by_cases hw : args.wandb <;> by_cases hp : 0 < args.early_stopping_patience <;>
    simp [main_events, train_model, fitTestCalls, hw, hp]

/-- C5: for every argument assignment, `main` saves the hyperparameter
object via `pickle_save(model.hparams, model.hparams_save_path)` exactly
once, after `trainer.fit` has returned and before `trainer.test` is
called. -/
theorem C5_hparams_saved_once_between (args : Args) :
    fitSaveTestCalls (main_events args) =
      [Event.fit, Event.pickleSaveHparams, Event.test false "best"] := by
  by_cases hw : args.wandb <;> by_cases hp : 0 < args.early_stopping_patience <;>
    simp [main_events, train_model, fitSaveTestCalls, hw, hp]

/-- C6: for every argument assignment, exactly one ModelCheckpoint callback
is constructed, with `dirpath=args.output_dir`, filename pattern
"\x7bf1_score:.4f\x7d", monitored metric "f1_score", mode "max" and
`save_top_k=args.save_top_k`, whose declared default is 1. -/
theorem C6_checkpoint_config (args : Args) (lg : Logger) :
    checkpointConstructions (train_model args lg) =
      [Callback.modelCheckpoint args.output_dir "\x7bf1_score:.4f\x7d" "f1_score" "max"
        args.save_top_k] ∧
    optionDefault "save_top_k" = some (ArgValue.intV 1) := by
  refine ⟨?_, rfl⟩
  by_cases h : 0 < args.early_stopping_patience <;>
    simp [train_model, checkpointConstructions, checkpoint_callback, logging_callback,
      early_stopping_callback, h]

/-- The sequence of framework-call shapes of a run of `main`, as a function
of the two conditions the script branches on: `args.wandb` and
`args.early_stopping_patience > 0`. -/
theorem shape_trace_eq (args : Args) :
    (main_events args).map Event.shape =
      [EventShape.mkdir, EventShape.constructModel] ++
      (if args.wandb then [EventShape.constructLogger] else []) ++
      [EventShape.seedEverything, EventShape.randomSeed, EventShape.torchManualSeed,
       EventShape.cudaManualSeed, EventShape.cudaManualSeedAll,
       EventShape.constructCallback CallbackKind.modelCheckpoint,
       EventShape.constructCallback CallbackKind.logging] ++
      (if 0 < args.early_stopping_patience then
        [EventShape.constructCallback CallbackKind.earlyStopping] else []) ++
      [EventShape.constructTrainer, EventShape.fit, EventShape.pickleSaveHparams,
       EventShape.test] := by
  by_cases h1 : args.wandb <;> by_cases h2 : 0 < args.early_stopping_patience <;>
    simp [main_events, train_model, h1, h2, Event.shape, Callback.kind,
      checkpoint_callback, logging_callback, early_stopping_callback]

/-- C7, counterexample: two argument assignments that differ only in
`early_stopping_patience` (-1 versus 2) make different sequences of
framework constructions and calls, so the configuration logic is not
branch-free: the run with positive patience constructs an EarlyStopping
object the other run never constructs. -/
theorem C7_same_shape_cex :
    ¬ ((main_events argsBase).map Event.shape
        = (main_events argsPatienceTwo).map Event.shape) := by
  decide

/-- C7, amended: the configuration logic branches exactly on
`args.early_stopping_patience > 0` and `args.wandb`: any two argument
assignments that agree on those two conditions produce the same sequence of
framework objects and framework calls, differing only in the argument
values passed through. -/
theorem C7_branch_only_on_patience_and_wandb (a b : Args)
    (hp : (0 < a.early_stopping_patience) = (0 < b.early_stopping_patience))
    (hw : a.wandb = b.wandb) :
    (main_events a).map Event.shape = (main_events b).map Event.shape := by
  rw [shape_trace_eq, shape_trace_eq]
  simp only [hp, hw]

/-- C7, witness: two assignments differing in seed, precision flag and
output directory, but agreeing on the two branch conditions, produce the
same call shapes. -/
theorem C7_branch_witness :
    (main_events argsBase).map Event.shape = (main_events argsOtherValues).map Event.shape :=
  C7_branch_only_on_patience_and_wandb argsBase argsOtherValues rfl rfl

/-- C8: for every argument assignment, exactly one trainer is created and
the precision passed to it is 16 when the `--fp16` flag was given and 32
otherwise; no other precision value ever reaches a trainer. -/
theorem C8_precision_16_or_32 (args : Args) (lg : Logger) :
    trainerPrecisions (train_model args lg) = [if args.fp16 then 16 else 32] := by
  by_cases h : 0 < args.early_stopping_patience <;>
    simp [train_model, trainerPrecisions, precisionValue, h]

/-- C9: `--output_dir` is the only option declared `required=True`; parsing
succeeds exactly when it is provided (so omitting it is rejected); and with
`--output_dir` alone, every other option takes its declared default, in
particular seed 42, the three batch sizes 32, learning rate 5e-5 and
early-stopping patience -1. -/
theorem C9_output_dir_required (provided : List (String × ArgValue)) (s : String) :
    ((add_model_specific_args.filter (fun d => d.required)).map (fun d => d.name))
      = ["output_dir"] ∧
    (parse_args provided).isSome = provided.any (fun p => p.fst == "output_dir") ∧
    parse_args [("output_dir", ArgValue.strV s)] =
      some [("learning_rate", ArgValue.floatV (5 / 100000)),
            ("weight_decay", ArgValue.floatV 0),
            ("num_workers", ArgValue.intV 8),
            ("warmup_ratio", ArgValue.floatV (1 / 10)),
            ("save_top_k", ArgValue.intV 1),
            ("train_batch_size", ArgValue.intV 32),
            ("eval_batch_size", ArgValue.intV 32),
            ("test_batch_size", ArgValue.intV 32),
            ("seed", ArgValue.intV 42),
            ("accumulate_grad_batches", ArgValue.intV 1),
            ("output_dir", ArgValue.strV s),
            ("max_length", ArgValue.intV 60),
            ("early_stopping_patience", ArgValue.intV (-1)),
            ("pre_encoder", ArgValue.strV "bert-base-uncased"),
            ("wandb", ArgValue.boolV false),
            ("fp16", ArgValue.boolV false),
            ("n_train", ArgValue.intV (-1)),
            ("n_val", ArgValue.intV (-1)),
            ("n_test", ArgValue.intV (-1))] := by
  refine ⟨rfl, ?_, rfl⟩
  by_cases h : provided.any (fun p => p.fst == "output_dir") <;>
    simp [parse_args, add_model_specific_args, h]

/-- C10: `main` calls `mkdir` on the output directory with `exist_ok=True`
as its first step, before the model is constructed; when the directory
already exists the run proceeds normally, and when the directory is missing
and its parent does not exist either, `main` raises FileNotFoundError
(because `parents=True` is not passed) and performs no training at all. -/
theorem C10_mkdir_behavior (fs : FS) (args : Args) :
    (fs.isDir (toPath args.output_dir) = true →
      main fs args = Except.ok (main_events args)) ∧
    (fs.isDir (toPath args.output_dir) = false →
      fs.parentExists (toPath args.output_dir) = false →
      main fs args = Except.error MkdirError.fileNotFound) ∧
    (main_events args).head? = some (Event.mkdir (toPath args.output_dir) true) ∧
    (main_events args).get? 1 = some Event.constructModel := by
  refine ⟨?_, ?_, rfl, rfl⟩
  · intro h
    simp [main, FS.mkdir, h]
  · intro h1 h2
    simp [main, FS.mkdir, h1, h2]

end TrainPy
